import Mathlib

/-!
Shallow embedding of the signaling-server core of server.js: the connection
registry (clients), the per-room camera directory (availableCameras), the
message router (handleSignalingMessage), the disconnect handler (the close
event), and the connect handler (the connection event).

Conventions.  A JavaScript Map with string keys is an insertion-ordered
association list (JMap).  A WebSocket object ws is represented by a Client
record; the server stores each socket in the clients map under its own
ws.clientId, so field mutation on the socket is modelled by writing the
updated record back at that id.  Handlers take the socket as the pair
(senderId, sender).  JavaScript truthiness of optional string fields
(absent and the empty string are falsy) is modelled by truthy and jsOr.
Outbound traffic is returned as a list of (recipientId, OutMsg) pairs in
emission order.
-/

namespace WebRTCServer

/-- JS truthiness of an optional string field: absent and "" are falsy. -/
def truthy : Option String → Bool
  | none => false
  | some s => s ≠ ""

/-- JS `v || d` on an optional string field, as in the room-defaulting read
of `message.room` in the join handler. -/
def jsOr (v : Option String) (d : String) : String :=
  match v with
  | none => d
  | some s => if s = "" then d else s

/-- A JS Map with string keys: an insertion-ordered association list. -/
abbrev JMap (α : Type) := List (String × α)

/-- `Map.prototype.get`. -/
def jmFind {α : Type} : JMap α → String → Option α
  | [], _ => none
  | (k', v) :: rest, k => if k' = k then some v else jmFind rest k

/-- `Map.prototype.has`. -/
def jmHas {α : Type} (m : JMap α) (k : String) : Bool :=
  (jmFind m k).isSome

/-- `Map.prototype.set`: overwrite in place if the key exists, else append. -/
def jmSet {α : Type} : JMap α → String → α → JMap α
  | [], k, v => [(k, v)]
  | (k', v') :: rest, k, v =>
      if k' = k then (k, v) :: rest else (k', v') :: jmSet rest k v

/-- `Map.prototype.delete`. -/
def jmDel {α : Type} (m : JMap α) (k : String) : JMap α :=
  m.filter (fun p => p.1 != k)

/-- The per-socket state attached to a ws object by server.js: `ws.room`,
`ws.deviceType`, `ws.cameraId` (each absent until assigned), and whether
`ws.readyState === WebSocket.OPEN`. -/
structure Client where
  room : Option String := none
  deviceType : Option String := none
  cameraId : Option String := none
  readyStateOpen : Bool := true
deriving DecidableEq, Repr

/-- Inbound messages dispatched by handleSignalingMessage.  Optional string
fields are Option String so that both an absent field and an empty string
(falsy in the validation checks) are representable. -/
inductive InMsg where
  | offer (target : Option String) (sdp : String)
  | answer (target : Option String) (sdp : String)
  | iceCandidate (target : Option String) (candidate : String)
  | join (room : Option String) (deviceType : Option String) (cameraId : Option String)
  | requestStream (cameraId : Option String) (requestId : Option String)
  | unknown (tag : String)
deriving DecidableEq, Repr

/-- Outbound messages produced by server.js, with exactly the fields it
serializes.  The sdp and candidate payloads are carried as opaque strings. -/
inductive OutMsg where
  | welcome (clientId : String)
  | joined (room : String)
  | clientJoined (clientId : String) (deviceType : String) (cameraId : Option String)
  | cameraAvailable (cameraId : String) (clientId : String)
  | cameraUnavailable (cameraId : String) (clientId : String)
  | offer (sender : String) (sdp : String)
  | answer (sender : String) (sdp : String)
  | iceCandidate (sender : String) (candidate : String)
  | viewerRequest (viewerId : String) (requestId : String)
  | cameraNotFound (cameraId : String)
deriving DecidableEq, Repr

/-- One delivery: recipient client id paired with the message sent. -/
abbrev Send := String × OutMsg

/-- The two global registries of server.js: `clients` (id to socket) and
`availableCameras` (room name to the cameraId-to-clientId directory). -/
structure ServerState where
  clients : JMap Client
  availableCameras : JMap (JMap String)
deriving DecidableEq, Repr

/-- sendToClient: look the target up in clients and deliver only when it is
present and its readyState is OPEN; otherwise drop (a log line only). -/
def sendToClient (clients : JMap Client) (clientId : String) (message : OutMsg) : List Send :=
  match jmFind clients clientId with
  | some client => if client.readyStateOpen then [(clientId, message)] else []
  | none => []

/-- broadcastToRoom: deliver to every stored client other than the sender
whose `room` field strictly equals the given room and whose readyState is
OPEN.  The `client !== sender` identity test is modelled as inequality of
ids, exact because each live socket is stored under its own id. -/
def broadcastToRoom (clients : JMap Client) (room : String) (message : OutMsg)
    (senderId : String) : List Send :=
  clients.filterMap (fun p =>
    if p.1 != senderId && p.2.room == some room && p.2.readyStateOpen
    then some (p.1, message) else none)

/-- handleSignalingMessage of server.js.  `now` is the string
`Date.now().toString()` consulted only by the requestStream default for a
missing requestId.  The result is the updated global state together with
the sends emitted, in order. -/
def handleSignalingMessage (st : ServerState) (senderId : String) (sender : Client)
    (message : InMsg) (now : String) : ServerState × List Send :=
  -- `if (!sender.clientId) return` : the id assigned at connect is never
  -- empty, so the guard is the truthiness test on the id string.
  if senderId = "" then (st, []) else
  match message with
  | .offer target sdp =>
      match target with
      | none => (st, [])
      | some t =>
          if t = "" then (st, [])
          else (st, sendToClient st.clients t (.offer senderId sdp))
  | .answer target sdp =>
      match target with
      | none => (st, [])
      | some t =>
          if t = "" then (st, [])
          else (st, sendToClient st.clients t (.answer senderId sdp))
  | .iceCandidate target candidate =>
      match target with
      | none => (st, [])
      | some t =>
          if t = "" then (st, [])
          else (st, sendToClient st.clients t (.iceCandidate senderId candidate))
  | .join roomField deviceTypeField cameraIdField =>
      let room := jsOr roomField "default"
      let sender1 : Client := { sender with room := some room }
      let sender2 : Client :=
        if truthy deviceTypeField then { sender1 with deviceType := deviceTypeField } else sender1
      let sender3 : Client :=
        if truthy cameraIdField then { sender2 with cameraId := cameraIdField } else sender2
      -- the mutated ws is the one stored in clients under senderId
      let clients1 := jmSet st.clients senderId sender3
      let cams1 :=
        if jmHas st.availableCameras room then st.availableCameras
        else jmSet st.availableCameras room []
      let joinedSend : List Send := [(senderId, .joined room)]
      let joinBroadcast :=
        broadcastToRoom clients1 room
          (.clientJoined senderId (jsOr sender3.deviceType "viewer") sender3.cameraId) senderId
      let camData :=
        if sender3.deviceType = some "camera" ∧ truthy sender3.cameraId then
          let camKey := sender3.cameraId.getD ""
          -- the room key is present in cams1 by the initialization just above
          let roomCams := (jmFind cams1 room).getD []
          (jmSet cams1 room (jmSet roomCams camKey senderId),
           broadcastToRoom clients1 room (.cameraAvailable camKey senderId) senderId)
        else (cams1, ([] : List Send))
      let viewerSends :=
        if ¬ truthy sender3.deviceType ∨ sender3.deviceType = some "viewer" then
          match jmFind camData.1 room with
          | some roomCams =>
              -- forEach over (cameraId, owning clientId); notify only when
              -- the owner is still in clients, otherwise silently skip
              roomCams.filterMap (fun p =>
                if jmHas clients1 p.2
                then some ((senderId, OutMsg.cameraAvailable p.1 p.2) : Send)
                else none)
          | none => []
        else []
      ({ clients := clients1, availableCameras := camData.1 },
       joinedSend ++ joinBroadcast ++ camData.2 ++ viewerSends)
  | .requestStream cameraIdField requestIdField =>
      match cameraIdField with
      | none => (st, [])
      | some camId =>
          if camId = "" then (st, []) else
          match sender.room with
          | none =>
              -- availableCameras.get(undefined) is undefined: no camera found
              (st, [(senderId, .cameraNotFound camId)])
          | some r =>
              match jmFind st.availableCameras r with
              | none => (st, [(senderId, .cameraNotFound camId)])
              | some roomCams =>
                  match jmFind roomCams camId with
                  | none => (st, [(senderId, .cameraNotFound camId)])
                  | some cameraClientId =>
                      if jmHas st.clients cameraClientId then
                        (st, sendToClient st.clients cameraClientId
                              (.viewerRequest senderId (jsOr requestIdField now)))
                      else
                        -- stale entry: purge it, then report camera not found
                        let cams2 := jmSet st.availableCameras r (jmDel roomCams camId)
                        ({ st with availableCameras := cams2 },
                         [(senderId, .cameraNotFound camId)])
  | .unknown _ => (st, [])

/-- The close handler installed per connection: if the socket was a camera
with a cameraId, drop that key from its room directory (when present) and
broadcast cameraUnavailable to the room; finally remove the socket from
clients.  The broadcast runs before the removal and excludes the closing
socket itself. -/
def handleClose (st : ServerState) (clientId : String) (ws : Client) :
    ServerState × List Send :=
  let cams1 :=
    if ws.deviceType = some "camera" ∧ truthy ws.cameraId then
      match ws.room with
      | some r =>
          match jmFind st.availableCameras r with
          | some roomCams =>
              if jmHas roomCams (ws.cameraId.getD "")
              then jmSet st.availableCameras r (jmDel roomCams (ws.cameraId.getD ""))
              else st.availableCameras
          | none => st.availableCameras
      | none => st.availableCameras
    else st.availableCameras
  let sends :=
    if ws.deviceType = some "camera" ∧ truthy ws.cameraId ∧ truthy ws.room then
      broadcastToRoom st.clients (ws.room.getD "")
        (.cameraUnavailable (ws.cameraId.getD "") clientId) clientId
    else []
  ({ clients := jmDel st.clients clientId, availableCameras := cams1 }, sends)

/-- Base-36 digit character, as produced by `Number.prototype.toString(36)`. -/
def b36Char (n : Nat) : Char :=
  if n < 10 then Char.ofNat (48 + n) else Char.ofNat (87 + n)

/-- Base-36 digit list of a natural number, most significant digit first.
Structurally recursive on a fuel argument so that it evaluates by kernel
reduction; fuel n + 1 always suffices since the argument strictly shrinks. -/
def natToBase36Aux : Nat → Nat → List Char
  | 0, _ => []
  | fuel + 1, n =>
      if n < 36 then [b36Char n]
      else natToBase36Aux fuel (n / 36) ++ [b36Char (n % 36)]

/-- `n.toString(36)` for a natural number n. -/
def natToBase36 (n : Nat) : String :=
  String.mk (natToBase36Aux (n + 1) n)

/-- generateClientId: `Date.now().toString(36) + Math.random().toString(36).substr(2)`.
The entropy consumed from the environment is the millisecond timestamp and
the random base-36 suffix string. -/
def generateClientId (timestamp : Nat) (randSuffix : String) : String :=
  natToBase36 timestamp ++ randSuffix

/-- The connection handler: generate an id from the entropy drawn at this
connect, store the fresh socket in clients under that id, and send the
welcome message carrying the id. -/
def handleConnection (st : ServerState) (timestamp : Nat) (randSuffix : String) :
    ServerState × List Send :=
  let clientId := generateClientId timestamp randSuffix
  let fresh : Client := { room := none, deviceType := none, cameraId := none, readyStateOpen := true }
  ({ st with clients := jmSet st.clients clientId fresh },
   [(clientId, .welcome clientId)])

/-- A sequence of connects, each drawing one entropy pair. -/
def connectAll (st : ServerState) : List (Nat × String) → ServerState
  | [] => st
  | e :: es => connectAll (handleConnection st e.1 e.2).1 es

/-- The state with no clients and no camera directory. -/
def emptyState : ServerState := { clients := [], availableCameras := [] }

/-- Recognizer for a cameraAvailable message delivered to a given recipient. -/
def camAvailTo (recipient : String) (s : Send) : Bool :=
  s.1 == recipient &&
    (match s.2 with
     | .cameraAvailable _ _ => true
     | _ => false)

/-- Reassign every stored client room field by a function of its id, and the
sender room field by a fixed value: the room-relabelled counterpart of a
state, used to express that relay routing never reads rooms. -/
def mapRooms (cs : JMap Client) (f : String → Option String) : JMap Client :=
  cs.map (fun p => (p.1, { p.2 with room := f p.1 }))

/-- The server state with every client room field relabelled. -/
def setRooms (st : ServerState) (f : String → Option String) : ServerState :=
  { st with clients := mapRooms st.clients f }

theorem jmFind_jmSet_self {α : Type} (m : JMap α) (k : String) (v : α) :
    jmFind (jmSet m k v) k = some v := by
  induction m with
  | nil => simp [jmSet, jmFind]
  | cons p rest ih =>
      rcases p with ⟨k', v'⟩
      by_cases h : k' = k
      · simp [jmSet, jmFind, h]
      · simp [jmSet, jmFind, h, ih]

theorem jmKeys_jmSet_of_not_mem {α : Type} (m : JMap α) (k : String) (v : α)
    (h : k ∉ m.map Prod.fst) :
    (jmSet m k v).map Prod.fst = m.map Prod.fst ++ [k] := by
  induction m with
  | nil => simp [jmSet]
  | cons p rest ih =>
      rcases p with ⟨k', v'⟩
      simp only [List.map_cons, List.mem_cons] at h
      push_neg at h
      have hk : k' ≠ k := fun hkk => h.1 hkk.symm
      simp [jmSet, hk, ih h.2]

theorem jmFind_mapRooms (cs : JMap Client) (f : String → Option String) (t : String) :
    jmFind (mapRooms cs f) t = (jmFind cs t).map (fun c => { c with room := f t }) := by
  induction cs with
  | nil => rfl
  | cons p rest ih =>
      rcases p with ⟨k, c⟩
      by_cases h : k = t
      · subst h; simp [mapRooms, jmFind]
      · simp [mapRooms, jmFind, h] at ih ⊢
        exact ih

theorem sendToClient_mapRooms (cs : JMap Client) (f : String → Option String)
    (t : String) (m : OutMsg) :
    sendToClient (mapRooms cs f) t m = sendToClient cs t m := by
  simp only [sendToClient, jmFind_mapRooms]
  cases jmFind cs t <;> simp

theorem camAvailTo_broadcastToRoom (cs : JMap Client) (room : String) (m : OutMsg)
    (senderId : String) :
    (broadcastToRoom cs room m senderId).filter (camAvailTo senderId) = [] := by
  rw [List.filter_eq_nil_iff]
  intro s hs
  simp only [broadcastToRoom] at hs
  rcases List.mem_filterMap.mp hs with ⟨p, _, hf⟩
  split at hf
  · next hcond =>
      cases hf
      have hne : p.1 ≠ senderId := by
        simp only [Bool.and_eq_true, bne_iff_ne] at hcond
        exact hcond.1.1
      simp [camAvailTo, hne]
  · simp at hf

/-- C6: a join sets the room field to the requested room (the default room
name when the field is absent or empty) and leaves deviceType and cameraId
unchanged unless the message re-supplies them with a truthy value. -/
theorem join_room_default_and_sticky_fields
    (st : ServerState) (senderId : String) (sender : Client)
    (roomField deviceTypeField cameraIdField : Option String) (now : String)
    (hid : senderId ≠ "") :
    jmFind (handleSignalingMessage st senderId sender
        (.join roomField deviceTypeField cameraIdField) now).1.clients senderId
      = some { sender with
          room := some (jsOr roomField "default"),
          deviceType := if truthy deviceTypeField then deviceTypeField else sender.deviceType,
          cameraId := if truthy cameraIdField then cameraIdField else sender.cameraId } := by
  simp only [handleSignalingMessage, if_neg hid]
  by_cases hd : truthy deviceTypeField <;> by_cases hc : truthy cameraIdField <;>
    simp [hd, hc, jmFind_jmSet_self]

/-- C6 witness: a join that re-supplies no role keeps the previously set
camera role and key while moving the session to the requested room. -/
theorem join_room_default_and_sticky_fields_witness :
    jmFind (handleSignalingMessage
        { clients := [("A", { room := some "R1", deviceType := some "camera",
                              cameraId := some "cam1", readyStateOpen := true })],
          availableCameras := [] }
        "A"
        { room := some "R1", deviceType := some "camera", cameraId := some "cam1",
          readyStateOpen := true }
        (.join (some "R2") none none) "t").1.clients "A"
      = some { room := some "R2", deviceType := some "camera", cameraId := some "cam1",
               readyStateOpen := true } := by
  have h := join_room_default_and_sticky_fields
    { clients := [("A", { room := some "R1", deviceType := some "camera",
                          cameraId := some "cam1", readyStateOpen := true })],
      availableCameras := [] }
    "A"
    { room := some "R1", deviceType := some "camera", cameraId := some "cam1",
      readyStateOpen := true }
    (some "R2") none none "t" (by decide)
  simpa using h

/-- C10: a requestStream from a session that never joined a room (room field
unset) yields exactly one cameraNotFound reply carrying the requested key,
leaves the whole registry state unchanged, and returns normally. -/
theorem requestStream_without_room_replies_not_found
    (st : ServerState) (senderId : String) (sender : Client) (k : String)
    (rid : Option String) (now : String)
    (hroom : sender.room = none) (hid : senderId ≠ "") (hk : k ≠ "") :
    handleSignalingMessage st senderId sender (.requestStream (some k) rid) now
      = (st, [(senderId, .cameraNotFound k)]) := by
  simp [handleSignalingMessage, hid, hk, hroom]

/-- C10 witness: a concrete roomless requester gets the cameraNotFound reply
and the state is untouched. -/
theorem requestStream_without_room_replies_not_found_witness :
    handleSignalingMessage
        { clients := [("V", { room := none, deviceType := none, cameraId := none,
                              readyStateOpen := true })],
          availableCameras := [("R", [("cam1", "GHOST")])] }
        "V"
        { room := none, deviceType := none, cameraId := none, readyStateOpen := true }
        (.requestStream (some "camX") none) "t"
      = ({ clients := [("V", { room := none, deviceType := none, cameraId := none,
                               readyStateOpen := true })],
           availableCameras := [("R", [("cam1", "GHOST")])] },
         [("V", .cameraNotFound "camX")]) :=
  requestStream_without_room_replies_not_found _ "V" _ "camX" none "t"
    rfl (by decide) (by decide)

/-- C4: a relay message with a missing or empty target is dropped without any
send and without touching state; with a target named, the state is unchanged
and delivery is exactly sendToClient, which hands the target exactly one
message carrying the sender id and the payload unmodified when the target is
stored and open, and silently delivers nothing when the target is unknown or
not open. -/
theorem relay_forwarded_verbatim_or_dropped
    (st : ServerState) (senderId : String) (sender : Client) (now p t : String)
    (hid : senderId ≠ "") (ht : t ≠ "") :
    (handleSignalingMessage st senderId sender (.offer none p) now = (st, []) ∧
     handleSignalingMessage st senderId sender (.offer (some "") p) now = (st, []) ∧
     handleSignalingMessage st senderId sender (.offer (some t) p) now
       = (st, sendToClient st.clients t (.offer senderId p))) ∧
    (handleSignalingMessage st senderId sender (.answer none p) now = (st, []) ∧
     handleSignalingMessage st senderId sender (.answer (some "") p) now = (st, []) ∧
     handleSignalingMessage st senderId sender (.answer (some t) p) now
       = (st, sendToClient st.clients t (.answer senderId p))) ∧
    (handleSignalingMessage st senderId sender (.iceCandidate none p) now = (st, []) ∧
     handleSignalingMessage st senderId sender (.iceCandidate (some "") p) now = (st, []) ∧
     handleSignalingMessage st senderId sender (.iceCandidate (some t) p) now
       = (st, sendToClient st.clients t (.iceCandidate senderId p))) ∧
    (∀ m : OutMsg,
      (jmFind st.clients t = none → sendToClient st.clients t m = []) ∧
      (∀ c, jmFind st.clients t = some c →
        sendToClient st.clients t m = if c.readyStateOpen then [(t, m)] else [])) := by
  refine ⟨⟨?_, ?_, ?_⟩, ⟨?_, ?_, ?_⟩, ⟨?_, ?_, ?_⟩, ?_⟩ <;>
    try simp [handleSignalingMessage, hid, ht]
  intro m
  constructor
  · intro hnone; simp [sendToClient, hnone]
  · intro c hc; simp [sendToClient, hc]

/-- C4 witness: with an open target stored, the offer arrives as exactly one
message carrying the sender id and the untouched payload. -/
theorem relay_forwarded_verbatim_or_dropped_witness :
    handleSignalingMessage
        { clients := [("B", { room := none, deviceType := none, cameraId := none,
                              readyStateOpen := true })],
          availableCameras := [] }
        "A"
        { room := none, deviceType := none, cameraId := none, readyStateOpen := true }
        (.offer (some "B") "sdp-payload") "t"
      = ({ clients := [("B", { room := none, deviceType := none, cameraId := none,
                               readyStateOpen := true })],
           availableCameras := [] },
         [("B", .offer "A" "sdp-payload")]) := by
  have h := (relay_forwarded_verbatim_or_dropped
    { clients := [("B", { room := none, deviceType := none, cameraId := none,
                          readyStateOpen := true })],
      availableCameras := [] }
    "A"
    { room := none, deviceType := none, cameraId := none, readyStateOpen := true }
    "t" "sdp-payload" "B" (by decide) (by decide)).1.2.2
  rw [h]
  simp [sendToClient, jmFind]

/-- The registry state after session A joins room R as a camera under key
cam1 and then, without disconnecting, joins R again under key cam2. -/
def joinTwiceResult : ServerState :=
  (handleSignalingMessage
    (handleSignalingMessage
      { clients := [("A", { room := none, deviceType := none, cameraId := none,
                            readyStateOpen := true })],
        availableCameras := [] }
      "A"
      { room := none, deviceType := none, cameraId := none, readyStateOpen := true }
      (.join (some "R") (some "camera") (some "cam1")) "t").1
    "A"
    { room := some "R", deviceType := some "camera", cameraId := some "cam1",
      readyStateOpen := true }
    (.join (some "R") (some "camera") (some "cam2")) "t").1

/-- C1 counterexample: after joining R twice with keys cam1 then cam2, the
directory of R holds TWO entries owned by the session, so the old entry was
not deleted and there is not exactly one entry keyed by the latest key. -/
theorem join_twice_directory_counterexample :
    jmFind joinTwiceResult.availableCameras "R" = some [("cam1", "A"), ("cam2", "A")] ∧
    ((jmFind joinTwiceResult.availableCameras "R").getD []).countP (fun p => p.2 == "A")
      = 2 :=
  ⟨rfl, rfl⟩

/-- C1 amended: a join overwrites the room field of the session, so the
session belongs only to the new room afterward, but it deletes no directory
entry: a session joining room r twice in succession as a camera with two
different keys leaves two directory entries for it in r, the stale old key
and the new key, each mapping to its id. -/
theorem join_twice_leaves_two_entries
    (id r k1 k2 now : String)
    (hid : id ≠ "") (hr : r ≠ "") (h1 : k1 ≠ "") (h2 : k2 ≠ "") (hne : k1 ≠ k2) :
    jmFind ((handleSignalingMessage
        (handleSignalingMessage
          { clients := [(id, { room := none, deviceType := none, cameraId := none,
                               readyStateOpen := true })],
            availableCameras := [] }
          id
          { room := none, deviceType := none, cameraId := none, readyStateOpen := true }
          (.join (some r) (some "camera") (some k1)) now).1
        id
        { room := some r, deviceType := some "camera", cameraId := some k1,
          readyStateOpen := true }
        (.join (some r) (some "camera") (some k2)) now).1).availableCameras r
      = some [(k1, id), (k2, id)] := by
  simp [handleSignalingMessage, jsOr, truthy, jmHas, jmFind, jmSet,
    hid, hr, h1, h2, hne]

/-- C1 amended witness: the concrete double join leaves exactly the two
entries cam1 and cam2 for the session. -/
theorem join_twice_leaves_two_entries_witness :
    jmFind ((handleSignalingMessage
        (handleSignalingMessage
          { clients := [("A", { room := none, deviceType := none, cameraId := none,
                                readyStateOpen := true })],
            availableCameras := [] }
          "A"
          { room := none, deviceType := none, cameraId := none, readyStateOpen := true }
          (.join (some "R") (some "camera") (some "cam1")) "t").1
        "A"
        { room := some "R", deviceType := some "camera", cameraId := some "cam1",
          readyStateOpen := true }
        (.join (some "R") (some "camera") (some "cam2")) "t").1).availableCameras "R"
      = some [("cam1", "A"), ("cam2", "A")] :=
  join_twice_leaves_two_entries "A" "R" "cam1" "cam2" "t"
    (by decide) (by decide) (by decide) (by decide) (by decide)

/-- C2: evaluating the close handler where publisher A (key cam1) leaves
room R with member B remaining shows the complete outbound traffic: exactly
one cameraUnavailable for B and nothing else, in particular no notification
at all that carries only the departing session id, because server.js emits
no peer-left message on disconnect. -/
theorem disconnect_emits_only_cameraUnavailable :
    handleClose
        { clients := [("A", { room := some "R", deviceType := some "camera",
                              cameraId := some "cam1", readyStateOpen := true }),
                      ("B", { room := some "R", deviceType := none, cameraId := none,
                              readyStateOpen := true })],
          availableCameras := [("R", [("cam1", "A")])] }
        "A"
        { room := some "R", deviceType := some "camera", cameraId := some "cam1",
          readyStateOpen := true }
      = ({ clients := [("B", { room := some "R", deviceType := none, cameraId := none,
                               readyStateOpen := true })],
           availableCameras := [("R", [])] },
         [("B", .cameraUnavailable "cam1" "A")]) :=
  rfl

/-- C7 counterexample: two connects that draw the same timestamp and random
suffix are both welcomed with the same id 0x, and the second registration
overwrites the first, leaving a single registry entry while both
connections are open: the generator performs no uniqueness check. -/
theorem clientId_collision_counterexample :
    (handleConnection emptyState 0 "x").2 = [("0x", .welcome "0x")] ∧
    (handleConnection (handleConnection emptyState 0 "x").1 0 "x").2
      = [("0x", .welcome "0x")] ∧
    (handleConnection (handleConnection emptyState 0 "x").1 0 "x").1.clients
      = [("0x", { room := none, deviceType := none, cameraId := none,
                  readyStateOpen := true })] :=
  ⟨rfl, rfl, rfl⟩

theorem connectAll_keys (es : List (Nat × String)) :
    ∀ st : ServerState,
      (∀ e ∈ es, generateClientId e.1 e.2 ∉ st.clients.map Prod.fst) →
      (es.map (fun e => generateClientId e.1 e.2)).Nodup →
      (connectAll st es).clients.map Prod.fst
        = st.clients.map Prod.fst ++ es.map (fun e => generateClientId e.1 e.2) := by
  induction es with
  | nil => intro st _ _; simp [connectAll]
  | cons e es ih =>
      intro st hfresh hnodup
      simp only [List.map_cons, List.nodup_cons] at hnodup
      have hnot : generateClientId e.1 e.2 ∉ st.clients.map Prod.fst :=
        hfresh e (List.mem_cons_self e es)
      have hkeys := jmKeys_jmSet_of_not_mem st.clients (generateClientId e.1 e.2)
        { room := none, deviceType := none, cameraId := none, readyStateOpen := true } hnot
      have hfresh2 : ∀ e' ∈ es,
          generateClientId e'.1 e'.2 ∉ (handleConnection st e.1 e.2).1.clients.map Prod.fst := by
        intro e' he'
        simp only [handleConnection]
        rw [hkeys]
        simp only [List.mem_append, List.mem_singleton]
        rintro (hmem | heq)
        · exact hfresh e' (List.mem_cons_of_mem e he') hmem
        · exact hnodup.1 (heq ▸ List.mem_map_of_mem (fun x => generateClientId x.1 x.2) he')
      have hih := ih ((handleConnection st e.1 e.2).1) hfresh2 hnodup.2
      calc (connectAll st (e :: es)).clients.map Prod.fst
          = (connectAll (handleConnection st e.1 e.2).1 es).clients.map Prod.fst := rfl
        _ = (handleConnection st e.1 e.2).1.clients.map Prod.fst
              ++ es.map (fun x => generateClientId x.1 x.2) := hih
        _ = (st.clients.map Prod.fst ++ [generateClientId e.1 e.2])
              ++ es.map (fun x => generateClientId x.1 x.2) := by
              simp only [handleConnection]; rw [hkeys]
        _ = st.clients.map Prod.fst
              ++ (e :: es).map (fun x => generateClientId x.1 x.2) := by simp

/-- C7 amended: session ids are unique among connected sessions provided the
id strings generated from the entropy drawn at each connect are pairwise
distinct; under that proviso every connect adds its own entry and the
registered ids are exactly the generated ones with no duplicate.  The
generator itself enforces nothing: a repeated timestamp-and-suffix pair
produces a duplicate id that silently overwrites the earlier session. -/
theorem connect_ids_unique_of_nodup_entropy
    (es : List (Nat × String))
    (h : (es.map (fun e => generateClientId e.1 e.2)).Nodup) :
    (connectAll emptyState es).clients.map Prod.fst
        = es.map (fun e => generateClientId e.1 e.2) ∧
    ((connectAll emptyState es).clients.map Prod.fst).Nodup := by
  have hkeys := connectAll_keys es emptyState (by intro e _; simp [emptyState]) h
  simp only [emptyState, List.map_nil, List.nil_append] at hkeys
  exact ⟨hkeys, hkeys ▸ h⟩

/-- C7 amended witness: two connects drawing distinct entropy yield the two
distinct ids 0x and 1y, both registered. -/
theorem connect_ids_unique_of_nodup_entropy_witness :
    (connectAll emptyState [(0, "x"), (1, "y")]).clients.map Prod.fst
        = [(0, "x"), (1, "y")].map (fun e => generateClientId e.1 e.2) ∧
    ((connectAll emptyState [(0, "x"), (1, "y")]).clients.map Prod.fst).Nodup :=
  connect_ids_unique_of_nodup_entropy [(0, "x"), (1, "y")] (by decide)

/-- C8: the close handler purges the directory entry stored under the
DEPARTING session room and cameraId key and broadcasts cameraUnavailable
built from that key and the departing id, with no check that the entry
still maps to the departing session: the owner recorded in the entry is
arbitrary here. -/
theorem close_purges_directory_by_stored_key
    (st : ServerState) (closingId : String) (ws : Client) (r k ownerId : String)
    (dir : JMap String)
    (hdt : ws.deviceType = some "camera") (hk : ws.cameraId = some k) (hk0 : k ≠ "")
    (hr : ws.room = some r) (hr0 : r ≠ "")
    (hdir : jmFind st.availableCameras r = some dir) (hown : jmFind dir k = some ownerId) :
    handleClose st closingId ws
      = ({ clients := jmDel st.clients closingId,
           availableCameras := jmSet st.availableCameras r (jmDel dir k) },
         broadcastToRoom st.clients r (.cameraUnavailable k closingId) closingId) := by
  simp [handleClose, hdt, hk, hr, hdir, truthy, hk0, hr0, jmHas, hown]

/-- C8 witness: session A holds key cam1 whose directory entry meanwhile
maps to the later-registered session B; when A disconnects the entry is
deleted anyway and cameraUnavailable (cam1, A) is broadcast, here reaching
both B and the viewer V. -/
theorem close_purges_directory_by_stored_key_witness :
    handleClose
        { clients := [("A", { room := some "R", deviceType := some "camera",
                              cameraId := some "cam1", readyStateOpen := true }),
                      ("B", { room := some "R", deviceType := some "camera",
                              cameraId := some "cam1", readyStateOpen := true }),
                      ("V", { room := some "R", deviceType := none, cameraId := none,
                              readyStateOpen := true })],
          availableCameras := [("R", [("cam1", "B")])] }
        "A"
        { room := some "R", deviceType := some "camera", cameraId := some "cam1",
          readyStateOpen := true }
      = ({ clients := [("B", { room := some "R", deviceType := some "camera",
                               cameraId := some "cam1", readyStateOpen := true }),
                       ("V", { room := some "R", deviceType := none, cameraId := none,
                               readyStateOpen := true })],
           availableCameras := [("R", [])] },
         [("B", .cameraUnavailable "cam1" "A"), ("V", .cameraUnavailable "cam1" "A")]) := by
  have h := close_purges_directory_by_stored_key
    { clients := [("A", { room := some "R", deviceType := some "camera",
                          cameraId := some "cam1", readyStateOpen := true }),
                  ("B", { room := some "R", deviceType := some "camera",
                          cameraId := some "cam1", readyStateOpen := true }),
                  ("V", { room := some "R", deviceType := none, cameraId := none,
                          readyStateOpen := true })],
      availableCameras := [("R", [("cam1", "B")])] }
    "A"
    { room := some "R", deviceType := some "camera", cameraId := some "cam1",
      readyStateOpen := true }
    "R" "cam1" "B" [("cam1", "B")]
    rfl rfl (by decide) rfl (by decide) rfl rfl
  exact h.trans rfl

/-- C9: relay routing is independent of room membership: relabelling the
stored room field of every client and of the sender arbitrarily changes
neither the delivery nor the state effect of an offer, answer, or
candidate relay, whatever the target field holds. -/
theorem relay_independent_of_rooms
    (st : ServerState) (f : String → Option String) (senderId : String)
    (sender : Client) (room2 : Option String) (tgt : Option String) (p now : String) :
    (handleSignalingMessage (setRooms st f) senderId { sender with room := room2 }
        (.offer tgt p) now
      = (setRooms st f,
         (handleSignalingMessage st senderId sender (.offer tgt p) now).2)) ∧
    (handleSignalingMessage (setRooms st f) senderId { sender with room := room2 }
        (.answer tgt p) now
      = (setRooms st f,
         (handleSignalingMessage st senderId sender (.answer tgt p) now).2)) ∧
    (handleSignalingMessage (setRooms st f) senderId { sender with room := room2 }
        (.iceCandidate tgt p) now
      = (setRooms st f,
         (handleSignalingMessage st senderId sender (.iceCandidate tgt p) now).2)) := by
  refine ⟨?_, ?_, ?_⟩ <;>
  · simp only [handleSignalingMessage]
    by_cases hid : senderId = ""
    · simp [hid]
    · cases tgt with
      | none => simp [hid]
      | some t =>
          by_cases ht : t = ""
          · simp [hid, ht]
          · simp [hid, ht, setRooms, sendToClient_mapRooms]

/-- C3 counterexample: a viewer joins room R whose directory has one stale
entry (owner GHOST absent from clients); the join completes with no
notification for it, yet the stale entry is still in the directory
afterward, so it was skipped, not deleted. -/
theorem viewer_join_keeps_stale_entry_counterexample :
    handleSignalingMessage
        { clients := [("V", { room := none, deviceType := none, cameraId := none,
                              readyStateOpen := true })],
          availableCameras := [("R", [("cam1", "GHOST")])] }
        "V"
        { room := none, deviceType := none, cameraId := none, readyStateOpen := true }
        (.join (some "R") none none) "t"
      = ({ clients := [("V", { room := some "R", deviceType := none, cameraId := none,
                               readyStateOpen := true })],
           availableCameras := [("R", [("cam1", "GHOST")])] },
         [("V", .joined "R")]) :=
  rfl

/-- C3 amended: when a session joins with a non-camera role, the directory
of the room is left untouched, and the cameraAvailable messages delivered
to the joiner are exactly one per directory entry whose owning id is still
in the global mapping; entries with an absent owner are silently skipped
rather than deleted. -/
theorem viewer_join_notifies_live_and_skips_stale
    (cs : JMap Client) (cams : JMap (JMap String)) (senderId : String) (sender : Client)
    (r now : String) (dir : JMap String)
    (hid : senderId ≠ "") (hr : r ≠ "")
    (hdt : ¬ truthy sender.deviceType ∨ sender.deviceType = some "viewer")
    (hdir : jmFind cams r = some dir) :
    (handleSignalingMessage { clients := cs, availableCameras := cams } senderId sender
        (.join (some r) none none) now).1.availableCameras = cams ∧
    ((handleSignalingMessage { clients := cs, availableCameras := cams } senderId sender
        (.join (some r) none none) now).2.filter (camAvailTo senderId))
      = dir.filterMap (fun p =>
          if jmHas (jmSet cs senderId { sender with room := some r }) p.2
          then some ((senderId, OutMsg.cameraAvailable p.1 p.2) : Send) else none) := by
  have hcam : ¬ (sender.deviceType = some "camera" ∧ truthy sender.cameraId = true) := by
    rintro ⟨hdtc, _⟩
    rcases hdt with h | h
    · rw [hdtc] at h; exact h (by decide)
    · rw [hdtc] at h; exact absurd (Option.some.inj h) (by decide)
  have hhas : jmHas cams r = true := by simp [jmHas, hdir]
  have hroom : jsOr (some r) "default" = r := by simp [jsOr, hr]
  have htn : truthy none = false := rfl
  simp only [handleSignalingMessage, if_neg hid, hroom, htn, Bool.false_eq_true, if_false]
  simp only [if_neg hcam, if_pos hdt, hhas, hdir]
  refine ⟨by simp, ?_⟩
  simp [camAvailTo_broadcastToRoom, camAvailTo, List.filter_append]
  rw [hdir]
  apply List.filter_eq_self.mpr
  intro s hs
  rcases List.mem_filterMap.mp hs with ⟨p, _, hf⟩
  split at hf
  · cases hf; simp [camAvailTo]
  · simp at hf

/-- C3 amended witness: joining as viewer with one live entry (owner A) and
one stale entry (owner GHOST), the joiner receives exactly one
cameraAvailable for the live entry and the directory is unchanged. -/
theorem viewer_join_notifies_live_and_skips_stale_witness :
    (handleSignalingMessage
        { clients := [("V", { room := none, deviceType := none, cameraId := none,
                              readyStateOpen := true }),
                      ("A", { room := some "R", deviceType := some "camera",
                              cameraId := some "cam1", readyStateOpen := true })],
          availableCameras := [("R", [("cam1", "A"), ("cam2", "GHOST")])] }
        "V"
        { room := none, deviceType := none, cameraId := none, readyStateOpen := true }
        (.join (some "R") none none) "t").1.availableCameras
      = [("R", [("cam1", "A"), ("cam2", "GHOST")])] ∧
    ((handleSignalingMessage
        { clients := [("V", { room := none, deviceType := none, cameraId := none,
                              readyStateOpen := true }),
                      ("A", { room := some "R", deviceType := some "camera",
                              cameraId := some "cam1", readyStateOpen := true })],
          availableCameras := [("R", [("cam1", "A"), ("cam2", "GHOST")])] }
        "V"
        { room := none, deviceType := none, cameraId := none, readyStateOpen := true }
        (.join (some "R") none none) "t").2.filter (camAvailTo "V"))
      = [("V", OutMsg.cameraAvailable "cam1" "A")] := by
  have h := viewer_join_notifies_live_and_skips_stale
    [("V", { room := none, deviceType := none, cameraId := none, readyStateOpen := true }),
     ("A", { room := some "R", deviceType := some "camera", cameraId := some "cam1",
             readyStateOpen := true })]
    [("R", [("cam1", "A"), ("cam2", "GHOST")])]
    "V"
    { room := none, deviceType := none, cameraId := none, readyStateOpen := true }
    "R" "t" [("cam1", "A"), ("cam2", "GHOST")]
    (by decide) (by decide) (Or.inl (by decide)) rfl
  exact ⟨h.1, h.2.trans rfl⟩

/-- C5 counterexample: the directory entry cam1 of room R names session B,
which is present in the global mapping but whose transport is not open; the
requestStream produces no publisher-requested notification for B, no reply
to the requester, and no state change, refuting that a present owner always
receives exactly one notification. -/
theorem requestStream_present_closed_owner_counterexample :
    handleSignalingMessage
        { clients := [("Q", { room := some "R", deviceType := none, cameraId := none,
                              readyStateOpen := true }),
                      ("B", { room := some "R", deviceType := some "camera",
                              cameraId := some "cam1", readyStateOpen := false })],
          availableCameras := [("R", [("cam1", "B")])] }
        "Q"
        { room := some "R", deviceType := none, cameraId := none, readyStateOpen := true }
        (.requestStream (some "cam1") (some "x")) "t"
      = ({ clients := [("Q", { room := some "R", deviceType := none, cameraId := none,
                               readyStateOpen := true }),
                       ("B", { room := some "R", deviceType := some "camera",
                               cameraId := some "cam1", readyStateOpen := false })],
           availableCameras := [("R", [("cam1", "B")])] },
         []) :=
  rfl

/-- C5 amended: a requestStream whose key has no directory entry in the
sender room (or whose sender has no room, or whose entry names an id absent
from the global mapping) yields exactly one cameraNotFound reply carrying
the key and no broadcast, purging the stale entry in the absent-owner case;
when the entry names a stored owner, the owner receives exactly one
viewerRequest carrying the requester id and the correlation id if its
transport is open, and nothing at all is sent when it is not open. -/
theorem requestStream_lookup_behavior
    (st : ServerState) (senderId : String) (sender : Client) (k : String)
    (rid : Option String) (now : String) (hid : senderId ≠ "") (hk : k ≠ "") :
    (sender.room = none →
      handleSignalingMessage st senderId sender (.requestStream (some k) rid) now
        = (st, [(senderId, .cameraNotFound k)])) ∧
    (∀ r, sender.room = some r → jmFind st.availableCameras r = none →
      handleSignalingMessage st senderId sender (.requestStream (some k) rid) now
        = (st, [(senderId, .cameraNotFound k)])) ∧
    (∀ r dir, sender.room = some r → jmFind st.availableCameras r = some dir →
      jmFind dir k = none →
      handleSignalingMessage st senderId sender (.requestStream (some k) rid) now
        = (st, [(senderId, .cameraNotFound k)])) ∧
    (∀ r dir owner, sender.room = some r → jmFind st.availableCameras r = some dir →
      jmFind dir k = some owner → jmFind st.clients owner = none →
      handleSignalingMessage st senderId sender (.requestStream (some k) rid) now
        = ({ st with availableCameras := jmSet st.availableCameras r (jmDel dir k) },
           [(senderId, .cameraNotFound k)])) ∧
    (∀ r dir owner c, sender.room = some r → jmFind st.availableCameras r = some dir →
      jmFind dir k = some owner → jmFind st.clients owner = some c →
      handleSignalingMessage st senderId sender (.requestStream (some k) rid) now
        = (st, if c.readyStateOpen
               then [(owner, .viewerRequest senderId (jsOr rid now))]
               else [])) := by
  refine ⟨?_, ?_, ?_, ?_, ?_⟩
  · intro hroom
    simp [handleSignalingMessage, hid, hk, hroom]
  · intro r hroom hcams
    simp [handleSignalingMessage, hid, hk, hroom, hcams]
  · intro r dir hroom hcams hkey
    simp [handleSignalingMessage, hid, hk, hroom, hcams, hkey]
  · intro r dir owner hroom hcams hkey hgone
    simp [handleSignalingMessage, hid, hk, hroom, hcams, hkey, hgone, jmHas]
  · intro r dir owner c hroom hcams hkey hc
    simp [handleSignalingMessage, hid, hk, hroom, hcams, hkey, hc, jmHas, sendToClient]

/-- C5 amended witness: for a missing key exactly one cameraNotFound reply
and nothing else; for a stored open owner exactly one viewerRequest carrying
the requester id and correlation id. -/
theorem requestStream_lookup_behavior_witness :
    handleSignalingMessage
        { clients := [("Q", { room := some "R", deviceType := none, cameraId := none,
                              readyStateOpen := true }),
                      ("B", { room := some "R", deviceType := some "camera",
                              cameraId := some "cam1", readyStateOpen := true })],
          availableCameras := [("R", [("cam1", "B")])] }
        "Q"
        { room := some "R", deviceType := none, cameraId := none, readyStateOpen := true }
        (.requestStream (some "nope") (some "x")) "t"
      = ({ clients := [("Q", { room := some "R", deviceType := none, cameraId := none,
                               readyStateOpen := true }),
                       ("B", { room := some "R", deviceType := some "camera",
                               cameraId := some "cam1", readyStateOpen := true })],
           availableCameras := [("R", [("cam1", "B")])] },
         [("Q", .cameraNotFound "nope")]) ∧
    handleSignalingMessage
        { clients := [("Q", { room := some "R", deviceType := none, cameraId := none,
                              readyStateOpen := true }),
                      ("B", { room := some "R", deviceType := some "camera",
                              cameraId := some "cam1", readyStateOpen := true })],
          availableCameras := [("R", [("cam1", "B")])] }
        "Q"
        { room := some "R", deviceType := none, cameraId := none, readyStateOpen := true }
        (.requestStream (some "cam1") (some "x")) "t"
      = ({ clients := [("Q", { room := some "R", deviceType := none, cameraId := none,
                               readyStateOpen := true }),
                       ("B", { room := some "R", deviceType := some "camera",
                               cameraId := some "cam1", readyStateOpen := true })],
           availableCameras := [("R", [("cam1", "B")])] },
         [("B", .viewerRequest "Q" "x")]) := by
  constructor
  · have h := (requestStream_lookup_behavior
      { clients := [("Q", { room := some "R", deviceType := none, cameraId := none,
                            readyStateOpen := true }),
                    ("B", { room := some "R", deviceType := some "camera",
                            cameraId := some "cam1", readyStateOpen := true })],
        availableCameras := [("R", [("cam1", "B")])] }
      "Q"
      { room := some "R", deviceType := none, cameraId := none, readyStateOpen := true }
      "nope" (some "x") "t" (by decide) (by decide)).2.2.1
    exact h "R" [("cam1", "B")] rfl rfl rfl
  · have h := (requestStream_lookup_behavior
      { clients := [("Q", { room := some "R", deviceType := none, cameraId := none,
                            readyStateOpen := true }),
                    ("B", { room := some "R", deviceType := some "camera",
                            cameraId := some "cam1", readyStateOpen := true })],
        availableCameras := [("R", [("cam1", "B")])] }
      "Q"
      { room := some "R", deviceType := none, cameraId := none, readyStateOpen := true }
      "cam1" (some "x") "t" (by decide) (by decide)).2.2.2.2
    have h2 := h "R" [("cam1", "B")] "B"
      { room := some "R", deviceType := some "camera", cameraId := some "cam1",
        readyStateOpen := true }
      rfl rfl rfl rfl
    exact h2.trans rfl

end WebRTCServer
